import Mathlib

/-!
Shallow embedding of the core of the `data-engineer-assessment` pipeline:
the resilient fetch engine (`src/pipeline/ingest.py`) and the run-health
evaluator (`src/pipeline/observability.py`), with the constants of
`src/pipeline/throttle.py`.

Modelling conventions:
* The HTTP layer (`requests.get` + streaming) is abstracted as a function
  `String → Nat → AttemptResult` giving, for a URL and an attempt index, what
  that attempt observes: a timeout exception, a connection error, some other
  exception, or a response with a status code and a list of decoded body
  chunks (`iter_content(chunk_size=64*1024, decode_unicode=True)`).
* `compute_hash` (SHA-256 hexdigest, `src/pipeline/hashing.py`) is passed in
  as an opaque total function `String → String`; the claims only depend on
  where it is applied, never on the digest bytes themselves.
* `time.sleep` calls are recorded in an event trace (`SleepEvent`) returned
  alongside the outcome, so backoff/throttle behaviour is provable.
* Python floats and `datetime` arithmetic are modelled as exact rationals
  (`ℚ`); `round(x, 2)` is modelled as round-half-to-even on the exact value.
* `len(s.encode("utf-8", errors="replace"))` is `utf8Len`: a Lean `String`
  is a sequence of Unicode scalar values, for which UTF-8 encoding never
  needs replacement.
-/

namespace Pipeline

/-- Constants of `src/pipeline/throttle.py`. -/
def REQUEST_TIMEOUT : Nat := 30

/-- `MAX_RETRIES = 3`. -/
def MAX_RETRIES : Nat := 3

/-- `BACKOFF_BASE = 2`. -/
def BACKOFF_BASE : Nat := 2

/-- `THROTTLE_DELAY = 0.3`. -/
def THROTTLE_DELAY : ℚ := 3 / 10

/-- `MAX_CONTENT_SIZE = 5 * 1024 * 1024`  (5 MB). -/
def MAX_CONTENT_SIZE : Nat := 5 * 1024 * 1024

/-- `TRANSIENT_STATUS_CODES = {408, 429, 500, 502, 503, 504}`. -/
def TRANSIENT_STATUS_CODES : List Nat := [408, 429, 500, 502, 503, 504]

/-- Byte length of the UTF-8 encoding of a string:
`len(s.encode("utf-8", errors="replace"))`. -/
def utf8Len (s : String) : Nat := (s.data.map Char.utf8Size).sum

/-- Python `"".join(chunks)`. -/
def joinChunks : List String → String
  | [] => ""
  | c :: rest => c ++ joinChunks rest

/-- The literal marker appended on truncation:
`f"\n\n[TRUNCATED at \x7bMAX_CONTENT_SIZE / (1024*1024):.0f\x7d MB]"`; the format
expression evaluates to `"5"`. -/
def TRUNCATION_MARKER : String :=
  "\n\n[TRUNCATED at " ++ toString (MAX_CONTENT_SIZE / (1024 * 1024)) ++ " MB]"

/-- What one attempt of the HTTP layer does: raise
`requests.exceptions.Timeout`, raise `requests.exceptions.ConnectionError`
(with its message), raise any other exception (with its `str`), or deliver a
response with a status code and the streamed body chunks. -/
inductive AttemptResult where
  | timeoutExc : AttemptResult
  | connError (msg : String) : AttemptResult
  | otherExc (msg : String) : AttemptResult
  | response (status : Nat) (chunks : List String) : AttemptResult
deriving DecidableEq

/-- One recorded `time.sleep` call: the exponential backoff before a retry,
or the post-success throttle delay. -/
inductive SleepEvent where
  | backoff (seconds : ℚ) : SleepEvent
  | throttle (seconds : ℚ) : SleepEvent
deriving DecidableEq

/-- The dict returned by `fetch_document`. -/
structure FetchOutcome where
  content : Option String
  content_hash : Option String
  content_size_bytes : Nat
  http_status : Option Nat
  fetch_status : String
  retry_count : Nat
deriving DecidableEq

/-- The chunk-accumulation loop of `fetch_document` (lines 51-61): skip falsy
(empty) chunks, add each chunk's UTF-8 byte length to the running total, keep
the chunk iff the total stays within `MAX_CONTENT_SIZE`, and stop (truncated)
at the first chunk that pushes the total over the cap.  Returns
(kept chunks, final `total_size`, `truncated`). -/
def streamChunks : List String → Nat → List String × Nat × Bool
  | [], total => ([], total, false)
  | c :: rest, total =>
    if c.isEmpty then streamChunks rest total
    else
      let total' := total + utf8Len c
      if total' ≤ MAX_CONTENT_SIZE then
        let r := streamChunks rest total'
        (c :: r.1, r.2.1, r.2.2)
      else ([], total', true)

/-- Python `str` applied to `last_exception` (a string or `None`). -/
def pyStr : Option String → String
  | none => "None"
  | some s => s

/-- Python `s.lower()`: lower-case each character. -/
def pyLower (s : String) : String := String.mk (s.data.map Char.toLower)

/-- Substring occurrence on character lists (structural, so that it computes
by kernel reduction). -/
def containsChars (pat : List Char) : List Char → Bool
  | [] => pat.isPrefixOf []
  | c :: rest => pat.isPrefixOf (c :: rest) || containsChars pat rest

/-- Python `pat in s`. -/
def containsSub (s pat : String) : Bool := containsChars pat.data s.data

/-- The retry loop of `fetch_document` (`for attempt in range(MAX_RETRIES+1)`),
as structural recursion on the number of remaining iterations; `attempt` is the
current loop index, `lastExc`/`httpStatus` the mutable locals `last_exception`
and `http_status`.  Returns the outcome dict and the trace of sleeps. -/
def fetch_go (hash : String → String) (http : Nat → AttemptResult) :
    Nat → Nat → Option String → Option Nat → FetchOutcome × List SleepEvent
  | _, 0, lastExc, httpStatus =>
    ({ content := none
       content_hash := none
       content_size_bytes := 0
       http_status := httpStatus
       fetch_status :=
         if containsSub (pyLower (pyStr lastExc)) "timeout" then "timeout" else "failed"
       retry_count := MAX_RETRIES }, [])
  | attempt, remaining + 1, _lastExc, _httpStatus =>
    let pre : List SleepEvent :=
      if 0 < attempt then [SleepEvent.backoff ((BACKOFF_BASE : ℚ) ^ attempt)] else []
    match http attempt with
    | .timeoutExc =>
      let r := fetch_go hash http (attempt + 1) remaining (some "timeout") none
      (r.1, pre ++ r.2)
    | .connError m =>
      let r := fetch_go hash http (attempt + 1) remaining
        (some ("connection_error: " ++ m)) none
      (r.1, pre ++ r.2)
    | .otherExc m =>
      let r := fetch_go hash http (attempt + 1) remaining (some m) none
      (r.1, pre ++ r.2)
    | .response st chunks =>
      if 400 ≤ st ∧ st ∉ TRANSIENT_STATUS_CODES then
        ({ content := none
           content_hash := none
           content_size_bytes := 0
           http_status := some st
           fetch_status := "failed"
           retry_count := attempt }, pre)
      else if st ∈ TRANSIENT_STATUS_CODES then
        let r := fetch_go hash http (attempt + 1) remaining
          (some ("HTTP " ++ toString st)) (some st)
        (r.1, pre ++ r.2)
      else
        let s := streamChunks chunks 0
        let content0 := joinChunks s.1
        let content :=
          if s.2.2 then content0 ++ TRUNCATION_MARKER else content0
        let totalSize := if s.2.2 then utf8Len content else s.2.1
        ({ content := some content
           content_hash := some (hash content)
           content_size_bytes := totalSize
           http_status := some st
           fetch_status := "success"
           retry_count := attempt },
         pre ++ [SleepEvent.throttle THROTTLE_DELAY])

/-- `fetch_document(url)` of `src/pipeline/ingest.py`, parameterised by the
digest function and the behaviour of the HTTP layer. -/
def fetch_document (hash : String → String) (http : String → Nat → AttemptResult)
    (url : String) : FetchOutcome × List SleepEvent :=
  fetch_go hash (http url) 0 (MAX_RETRIES + 1) none none

/-- The error string the loop records for a retryable attempt result
(`last_exception` after that iteration). -/
def recordedError : AttemptResult → String
  | .timeoutExc => "timeout"
  | .connError m => "connection_error: " ++ m
  | .otherExc m => m
  | .response st _ => "HTTP " ++ toString st

/-- The value of the local `http_status` after a retryable attempt: reset to
`None` by the exception handlers, set to the status code on a response. -/
def recordedStatus : AttemptResult → Option Nat
  | .response st _ => some st
  | _ => none

/-- An attempt result that makes the loop continue to the next attempt:
any exception, or a response whose status is in the transient set. -/
def retryable : AttemptResult → Bool
  | .timeoutExc => true
  | .connError _ => true
  | .otherExc _ => true
  | .response st _ => decide (st ∈ TRANSIENT_STATUS_CODES)

/-! Observability (`src/pipeline/observability.py`).  Timestamps are modelled
as exact rational numbers of seconds; UUID generation, the `created_at`
timestamp, the human-readable `message` (pure presentation built by string
formatting) and the `alert_id` of `_make_alert` are omitted from the record,
none of the specified behaviour depends on them. -/

/-- `FAILURE_RATE_WARNING = 10.0`. -/
def FAILURE_RATE_WARNING : ℚ := 10

/-- `FAILURE_RATE_CRITICAL = 25.0`. -/
def FAILURE_RATE_CRITICAL : ℚ := 25

/-- `STALENESS_WARNING_HOURS = 24`. -/
def STALENESS_WARNING_HOURS : ℚ := 24

/-- `STALENESS_CRITICAL_HOURS = 72`. -/
def STALENESS_CRITICAL_HOURS : ℚ := 72

/-- `EMPTY_RESULT_MIN_ROWS = 1`. -/
def EMPTY_RESULT_MIN_ROWS : Nat := 1

/-- `PERF_DEGRADATION_FACTOR = 2.0`. -/
def PERF_DEGRADATION_FACTOR : ℚ := 2

/-- Python `round(x, 2)`: round to 2 decimal places, ties to even (the float
value is modelled as the exact rational). -/
def pyRound2 (x : ℚ) : ℚ :=
  let y := x * 100
  let f := ⌊y⌋
  let z : ℤ :=
    if y - f < 1 / 2 then f
    else if 1 / 2 < y - f then f + 1
    else if 2 ∣ f then f else f + 1
  (z : ℚ) / 100

/-- The metrics dict created by `start_pipeline_run` and finalised by
`finish_pipeline_run`. -/
structure RunMetrics where
  run_id : String
  run_start : ℚ
  run_end : Option ℚ
  duration_seconds : Option ℚ
  stage : String
  urls_discovered : Nat
  urls_inserted : Nat
  urls_updated : Nat
  fetch_success : Nat
  fetch_failed : Nat
  fetch_timeout : Nat
  fetch_skipped : Nat
  failure_rate_pct : Option ℚ
  avg_response_ms : Option ℚ
  status : String
  error_message : Option String
deriving DecidableEq

/-- `start_pipeline_run(stage)`, with the generated UUID and the current UTC
time passed in explicitly. -/
def start_pipeline_run (run_id : String) (now : ℚ) (stage : String) : RunMetrics :=
  { run_id := run_id
    run_start := now
    run_end := none
    duration_seconds := none
    stage := stage
    urls_discovered := 0
    urls_inserted := 0
    urls_updated := 0
    fetch_success := 0
    fetch_failed := 0
    fetch_timeout := 0
    fetch_skipped := 0
    failure_rate_pct := none
    avg_response_ms := none
    status := "running"
    error_message := none }

/-- `finish_pipeline_run(metrics)`, with the current UTC time passed in as
`now`. -/
def finish_pipeline_run (now : ℚ) (metrics : RunMetrics) : RunMetrics :=
  let elapsed := now - metrics.run_start
  let total_fetches :=
    metrics.fetch_success + metrics.fetch_failed + metrics.fetch_timeout
  let frp : ℚ :=
    if 0 < total_fetches then
      pyRound2 (((metrics.fetch_failed + metrics.fetch_timeout : ℕ) : ℚ)
        / (total_fetches : ℚ) * 100)
    else 0
  { metrics with
    run_end := some now
    duration_seconds := some (pyRound2 elapsed)
    failure_rate_pct := some frp
    status := if metrics.status = "running" then "completed" else metrics.status }

/-- An alert dict as built by `_make_alert`, without the `alert_id`,
`created_at` and `message` presentation fields. -/
structure Alert where
  run_id : Option String
  severity : String
  category : String
  condition_name : String
  metric_value : Option ℚ
  threshold : Option ℚ
deriving DecidableEq

/-- `_make_alert` restricted to the modelled fields. -/
def make_alert (run_id : Option String) (severity category condition : String)
    (metric_value threshold : Option ℚ) : Alert :=
  { run_id := run_id
    severity := severity
    category := category
    condition_name := condition
    metric_value := metric_value
    threshold := threshold }

/-- `evaluate_alerts(metrics, historical_avg_duration)`.  The Python
`metrics.get("failure_rate_pct", 0.0) or 0.0` maps both a missing value and
`None` (and `0.0` itself) to `0.0`, i.e. `Option.getD _ 0`. -/
def evaluate_alerts (metrics : RunMetrics) (historical_avg_duration : Option ℚ) :
    List Alert :=
  let run_id := metrics.run_id
  let failure_rate := metrics.failure_rate_pct.getD 0
  let failureAlerts :=
    if FAILURE_RATE_CRITICAL ≤ failure_rate then
      [make_alert (some run_id) "CRITICAL" "failure_rate" "failure_rate_critical"
        (some failure_rate) (some FAILURE_RATE_CRITICAL)]
    else if FAILURE_RATE_WARNING ≤ failure_rate then
      [make_alert (some run_id) "WARNING" "failure_rate" "failure_rate_warning"
        (some failure_rate) (some FAILURE_RATE_WARNING)]
    else []
  let total_rows := metrics.urls_inserted + metrics.urls_updated
  let emptyAlerts :=
    if total_rows < EMPTY_RESULT_MIN_ROWS then
      [make_alert (some run_id) "CRITICAL" "empty_results" "empty_result_set"
        (some (total_rows : ℚ)) (some (EMPTY_RESULT_MIN_ROWS : ℚ))]
    else []
  let perfAlerts :=
    match metrics.duration_seconds, historical_avg_duration with
    | some duration, some hist =>
      if 0 < hist ∧ PERF_DEGRADATION_FACTOR ≤ duration / hist then
        [make_alert (some run_id) "WARNING" "performance" "performance_degradation"
          (some duration) (some (hist * PERF_DEGRADATION_FACTOR))]
      else []
    | _, _ => []
  failureAlerts ++ emptyAlerts ++ perfAlerts

/-- A Python `datetime` as relevant here: the instant it denotes expressed as
rational seconds, and whether it carries timezone information.  For a naive
value (no `tzinfo`), `epochSeconds` is its wall-clock reading taken as UTC,
which is exactly what `replace(tzinfo=timezone.utc)` makes of it. -/
structure PyDatetime where
  epochSeconds : ℚ
  hasTz : Bool
deriving DecidableEq

/-- `evaluate_staleness_alert(cursor)`: the SQL query
`SELECT MAX(RUN_END) ... WHERE STATUS = 'completed'` and `fetchone()` are
abstracted into the argument `row` — `none` for no row, `some none` for a row
whose single column is NULL, `some (some d)` for the last completed run's end
time; `now` is the current UTC time. -/
def evaluate_staleness_alert (now : ℚ) (row : Option (Option PyDatetime)) :
    List Alert :=
  match row with
  | none => [make_alert none "CRITICAL" "staleness" "no_completed_runs" none none]
  | some none => [make_alert none "CRITICAL" "staleness" "no_completed_runs" none none]
  | some (some lr) =>
    let last_run := if lr.hasTz then lr else { lr with hasTz := true }
    let hours_since := (now - last_run.epochSeconds) / 3600
    if STALENESS_CRITICAL_HOURS ≤ hours_since then
      [make_alert none "CRITICAL" "staleness" "pipeline_stale_critical"
        (some hours_since) (some STALENESS_CRITICAL_HOURS)]
    else if STALENESS_WARNING_HOURS ≤ hours_since then
      [make_alert none "WARNING" "staleness" "pipeline_stale_warning"
        (some hours_since) (some STALENESS_WARNING_HOURS)]
    else []

/-! Helper lemmas about the fetch loop. -/

/-- Appending strings adds their UTF-8 byte lengths. -/
theorem utf8Len_append (a b : String) : utf8Len (a ++ b) = utf8Len a + utf8Len b := by
  simp [utf8Len, String.data_append]

/-- A retryable attempt (exception or transient status) makes the loop record
the error and continue with the next attempt, after the backoff sleep when the
attempt index is positive. -/
theorem fetch_go_retryable_step (hash : String → String) (http : Nat → AttemptResult)
    (k r : Nat) (hr : retryable (http k) = true) (le : Option String) (hs : Option Nat) :
    fetch_go hash http k (r + 1) le hs =
      ((fetch_go hash http (k + 1) r (some (recordedError (http k)))
          (recordedStatus (http k))).1,
        (if 0 < k then [SleepEvent.backoff ((BACKOFF_BASE : ℚ) ^ k)] else []) ++
        (fetch_go hash http (k + 1) r (some (recordedError (http k)))
          (recordedStatus (http k))).2) := by
  cases hcase : http k with
  | timeoutExc => simp [fetch_go, hcase, recordedError, recordedStatus]
  | connError m => simp [fetch_go, hcase, recordedError, recordedStatus]
  | otherExc m => simp [fetch_go, hcase, recordedError, recordedStatus]
  | response st chunks =>
    have hmem : st ∈ TRANSIENT_STATUS_CODES := by
      have := hr
      rw [hcase] at this
      simpa [retryable] using this
    have hnot : ¬(400 ≤ st ∧ st ∉ TRANSIENT_STATUS_CODES) := by
      intro h
      exact h.2 hmem
    simp [fetch_go, hcase, recordedError, recordedStatus, hnot, hmem]

/-- A non-transient status `≥ 400` returns the `failed` outcome immediately,
with only the backoff sleeps performed so far. -/
theorem fetch_go_terminal (hash : String → String) (http : Nat → AttemptResult)
    (k r : Nat) (st : Nat) (chunks : List String)
    (hresp : http k = .response st chunks) (h4 : 400 ≤ st)
    (hnt : st ∉ TRANSIENT_STATUS_CODES) (le : Option String) (hs : Option Nat) :
    fetch_go hash http k (r + 1) le hs =
      ({ content := none
         content_hash := none
         content_size_bytes := 0
         http_status := some st
         fetch_status := "failed"
         retry_count := k },
        if 0 < k then [SleepEvent.backoff ((BACKOFF_BASE : ℚ) ^ k)] else []) := by
  simp [fetch_go, hresp, h4, hnt]

/-- A `2xx/3xx` status streams the body and returns the `success` outcome. -/
theorem fetch_go_success (hash : String → String) (http : Nat → AttemptResult)
    (k r : Nat) (st : Nat) (chunks : List String)
    (hresp : http k = .response st chunks) (hlt : st < 400)
    (le : Option String) (hs : Option Nat) :
    fetch_go hash http k (r + 1) le hs =
      (let s := streamChunks chunks 0
       let content0 := joinChunks s.1
       let content := if s.2.2 then content0 ++ TRUNCATION_MARKER else content0
       ({ content := some content
          content_hash := some (hash content)
          content_size_bytes := if s.2.2 then utf8Len content else s.2.1
          http_status := some st
          fetch_status := "success"
          retry_count := k },
        (if 0 < k then [SleepEvent.backoff ((BACKOFF_BASE : ℚ) ^ k)] else []) ++
          [SleepEvent.throttle THROTTLE_DELAY])) := by
  have hnt : st ∉ TRANSIENT_STATUS_CODES := by
    intro hmem
    rcases (by simpa [TRANSIENT_STATUS_CODES] using hmem : st = 408 ∨ st = 429 ∨
      st = 500 ∨ st = 502 ∨ st = 503 ∨ st = 504) with h | h | h | h | h | h <;> omega
  have h4 : ¬(400 ≤ st ∧ st ∉ TRANSIENT_STATUS_CODES) := by
    intro h
    omega
  simp [fetch_go, hresp, h4, hnt]
  omega

/-- Well-formedness invariant of the retry loop: the status is one of the
three legal values, and content and digest are present exactly on success;
the retry count never exceeds `MAX_RETRIES` as long as at most
`MAX_RETRIES + 1` iterations remain. -/
theorem fetch_go_wf (hash : String → String) (http : Nat → AttemptResult) :
    ∀ (r k : Nat) (le : Option String) (hs : Option Nat),
      k + r ≤ MAX_RETRIES + 1 →
      ((fetch_go hash http k r le hs).1.fetch_status = "success" ∨
        (fetch_go hash http k r le hs).1.fetch_status = "failed" ∨
        (fetch_go hash http k r le hs).1.fetch_status = "timeout") ∧
      ((fetch_go hash http k r le hs).1.content.isSome ↔
        (fetch_go hash http k r le hs).1.fetch_status = "success") ∧
      ((fetch_go hash http k r le hs).1.content_hash.isSome ↔
        (fetch_go hash http k r le hs).1.fetch_status = "success") ∧
      (fetch_go hash http k r le hs).1.retry_count ≤ MAX_RETRIES := by
  intro r
  induction r with
  | zero =>
    intro k le hs _
    refine ⟨?_, ?_, ?_, ?_⟩
    · simp only [fetch_go]
      split <;> simp
    · simp only [fetch_go]
      split <;> simp
    · simp only [fetch_go]
      split <;> simp
    · simp [fetch_go]
  | succ n ih =>
    intro k le hs hk
    have hk' : (k + 1) + n ≤ MAX_RETRIES + 1 := by omega
    cases hcase : http k with
    | timeoutExc =>
      rw [fetch_go_retryable_step hash http k n (by rw [hcase]; rfl) le hs]
      exact ih (k + 1) _ _ hk'
    | connError m =>
      rw [fetch_go_retryable_step hash http k n (by rw [hcase]; rfl) le hs]
      exact ih (k + 1) _ _ hk'
    | otherExc m =>
      rw [fetch_go_retryable_step hash http k n (by rw [hcase]; rfl) le hs]
      exact ih (k + 1) _ _ hk'
    | response st chunks =>
      by_cases hmem : st ∈ TRANSIENT_STATUS_CODES
      · rw [fetch_go_retryable_step hash http k n
          (by rw [hcase]; simpa [retryable] using hmem) le hs]
        exact ih (k + 1) _ _ hk'
      · by_cases h4 : 400 ≤ st
        · rw [fetch_go_terminal hash http k n st chunks hcase h4 hmem le hs]
          refine ⟨by simp, by simp, by simp, by simp [MAX_RETRIES] at hk ⊢; omega⟩
        · rw [fetch_go_success hash http k n st chunks hcase (by omega) le hs]
          refine ⟨by simp, by simp, by simp, by simp [MAX_RETRIES] at hk ⊢; omega⟩

/-! Theorems. -/

/-- C1: for every URL, digest function and behaviour of the HTTP layer
(timeouts, connection failures, other exceptions, terminal or transient
statuses, arbitrary bodies), `fetch_document` returns a well-formed outcome:
`fetch_status` is one of `success`/`failed`/`timeout`, `content` and
`content_hash` are present exactly when the outcome is a success, and
`content_size_bytes` and `retry_count` are non-negative with
`retry_count ≤ MAX_RETRIES`; being a total Lean function of the behaviour,
it propagates no exception to its caller. -/
theorem C1_fetch_document_wellformed (hash : String → String)
    (http : String → Nat → AttemptResult) (url : String) :
    ((fetch_document hash http url).1.fetch_status = "success" ∨
      (fetch_document hash http url).1.fetch_status = "failed" ∨
      (fetch_document hash http url).1.fetch_status = "timeout") ∧
    ((fetch_document hash http url).1.content.isSome ↔
      (fetch_document hash http url).1.fetch_status = "success") ∧
    ((fetch_document hash http url).1.content_hash.isSome ↔
      (fetch_document hash http url).1.fetch_status = "success") ∧
    0 ≤ (fetch_document hash http url).1.content_size_bytes ∧
    0 ≤ (fetch_document hash http url).1.retry_count ∧
    (fetch_document hash http url).1.retry_count ≤ MAX_RETRIES := by
  have h := fetch_go_wf hash (http url) (MAX_RETRIES + 1) 0 none none (by omega)
  exact ⟨h.1, h.2.1, h.2.2.1, Nat.zero_le _, Nat.zero_le _, h.2.2.2⟩

/-- C6: for every metrics record, `finish_pipeline_run` sets `runEnd` to the
current time, `durationSeconds` to the elapsed seconds rounded to 2 decimals,
`failureRatePct` to `(fetchFailed+fetchTimeout)/totalFetches*100` rounded to 2
decimals when the total is positive and `0.0` when it is zero, and sets
`status` to `completed` only when the status is currently `running`; the
example `fetchSuccess=80, fetchFailed=15, fetchTimeout=5` yields
`failureRatePct = 20.0`. -/
theorem C6_finish_pipeline_run_finalises (now : ℚ) (m : Pipeline.RunMetrics) :
    (Pipeline.finish_pipeline_run now m).run_end = some now ∧
    (Pipeline.finish_pipeline_run now m).duration_seconds =
      some (Pipeline.pyRound2 (now - m.run_start)) ∧
    (Pipeline.finish_pipeline_run now m).failure_rate_pct =
      some (if 0 < m.fetch_success + m.fetch_failed + m.fetch_timeout then
        Pipeline.pyRound2 (((m.fetch_failed + m.fetch_timeout : ℕ) : ℚ) * 100
          / ((m.fetch_success + m.fetch_failed + m.fetch_timeout : ℕ) : ℚ))
      else 0) ∧
    (Pipeline.finish_pipeline_run now m).status =
      (if m.status = "running" then "completed" else m.status) ∧
    (Pipeline.finish_pipeline_run now
      { m with fetch_success := 80, fetch_failed := 15,
               fetch_timeout := 5 }).failure_rate_pct = some 20 := by
  refine ⟨rfl, rfl, ?_, rfl, ?_⟩
  · simp only [Pipeline.finish_pipeline_run]
    split
    · ring_nf
    · rfl
  · have h20 : Pipeline.pyRound2 20 = 20 := by
      norm_num [Pipeline.pyRound2]
    simp only [Pipeline.finish_pipeline_run]
    norm_num
    exact h20

/-- C10: `finish_pipeline_run` modifies only `run_end`, `duration_seconds`,
`failure_rate_pct` and `status`; `run_id`, `run_start`, `stage`, the seven
counters, `avg_response_ms` and `error_message` keep their prior values, and
the returned record is exactly the input record with those four fields
updated. -/
theorem C10_finish_pipeline_run_frame (now : ℚ) (m : Pipeline.RunMetrics) :
    (Pipeline.finish_pipeline_run now m).run_id = m.run_id ∧
    (Pipeline.finish_pipeline_run now m).run_start = m.run_start ∧
    (Pipeline.finish_pipeline_run now m).stage = m.stage ∧
    (Pipeline.finish_pipeline_run now m).urls_discovered = m.urls_discovered ∧
    (Pipeline.finish_pipeline_run now m).urls_inserted = m.urls_inserted ∧
    (Pipeline.finish_pipeline_run now m).urls_updated = m.urls_updated ∧
    (Pipeline.finish_pipeline_run now m).fetch_success = m.fetch_success ∧
    (Pipeline.finish_pipeline_run now m).fetch_failed = m.fetch_failed ∧
    (Pipeline.finish_pipeline_run now m).fetch_timeout = m.fetch_timeout ∧
    (Pipeline.finish_pipeline_run now m).fetch_skipped = m.fetch_skipped ∧
    (Pipeline.finish_pipeline_run now m).avg_response_ms = m.avg_response_ms ∧
    (Pipeline.finish_pipeline_run now m).error_message = m.error_message ∧
    Pipeline.finish_pipeline_run now m =
      { m with
        run_end := (Pipeline.finish_pipeline_run now m).run_end
        duration_seconds := (Pipeline.finish_pipeline_run now m).duration_seconds
        failure_rate_pct := (Pipeline.finish_pipeline_run now m).failure_rate_pct
        status := (Pipeline.finish_pipeline_run now m).status } := by
  refine ⟨rfl, rfl, rfl, rfl, rfl, rfl, rfl, rfl, rfl, rfl, rfl, rfl, rfl⟩

/-- C7: the failure-rate alerts emitted by `evaluate_alerts` are exactly one
CRITICAL `failure_rate_critical` alert when `failureRatePct ≥ 25.0`, else one
WARNING `failure_rate_warning` alert when `failureRatePct ≥ 10.0`, else none
— both boundaries inclusive and mutually exclusive, so at most one
failure-rate alert per call. -/
theorem C7_evaluate_alerts_failure_rate (m : Pipeline.RunMetrics) (hist : Option ℚ) :
    ((Pipeline.evaluate_alerts m hist).filter
        (fun a => a.category == "failure_rate") =
      (if 25 ≤ m.failure_rate_pct.getD 0 then
        [Pipeline.make_alert (some m.run_id) "CRITICAL" "failure_rate"
          "failure_rate_critical" (some (m.failure_rate_pct.getD 0)) (some 25)]
      else if 10 ≤ m.failure_rate_pct.getD 0 then
        [Pipeline.make_alert (some m.run_id) "WARNING" "failure_rate"
          "failure_rate_warning" (some (m.failure_rate_pct.getD 0)) (some 10)]
      else [])) ∧
    ((Pipeline.evaluate_alerts m hist).filter
        (fun a => a.category == "failure_rate")).length ≤ 1 := by
  have key : (Pipeline.evaluate_alerts m hist).filter
      (fun a => a.category == "failure_rate") =
      (if 25 ≤ m.failure_rate_pct.getD 0 then
        [Pipeline.make_alert (some m.run_id) "CRITICAL" "failure_rate"
          "failure_rate_critical" (some (m.failure_rate_pct.getD 0)) (some 25)]
      else if 10 ≤ m.failure_rate_pct.getD 0 then
        [Pipeline.make_alert (some m.run_id) "WARNING" "failure_rate"
          "failure_rate_warning" (some (m.failure_rate_pct.getD 0)) (some 10)]
      else []) := by
    simp only [Pipeline.evaluate_alerts, Pipeline.FAILURE_RATE_CRITICAL,
      Pipeline.FAILURE_RATE_WARNING, Pipeline.PERF_DEGRADATION_FACTOR,
      Pipeline.EMPTY_RESULT_MIN_ROWS, List.filter_append]
    rcases m.duration_seconds with _ | d <;> rcases hist with _ | h <;>
      split_ifs <;> simp +contextual [Pipeline.make_alert]
  refine ⟨key, ?_⟩
  rw [key]
  split_ifs <;> simp

/-- C8: `evaluate_staleness_alert` returns exactly one CRITICAL
`no_completed_runs` alert (with absent `runId`, `metricValue`, `threshold`)
when no completed run exists; otherwise, with `hoursSince` the hours since
the last completed run's end (a naive timestamp read as UTC), it returns
exactly one CRITICAL `pipeline_stale_critical` alert when `hoursSince ≥ 72`,
one WARNING `pipeline_stale_warning` alert when `24 ≤ hoursSince < 72`, and
no alert when `hoursSince < 24`; the two staleness alerts are mutually
exclusive and a naive timestamp behaves exactly like the same instant in
UTC. -/
theorem C8_evaluate_staleness_alert (now : ℚ) :
    (Pipeline.evaluate_staleness_alert now none =
      [Pipeline.make_alert none "CRITICAL" "staleness" "no_completed_runs"
        none none]) ∧
    (Pipeline.evaluate_staleness_alert now (some none) =
      [Pipeline.make_alert none "CRITICAL" "staleness" "no_completed_runs"
        none none]) ∧
    ∀ (s : ℚ) (tz : Bool),
      (Pipeline.evaluate_staleness_alert now (some (some ⟨s, tz⟩)) =
        (if 72 ≤ (now - s) / 3600 then
          [Pipeline.make_alert none "CRITICAL" "staleness"
            "pipeline_stale_critical" (some ((now - s) / 3600)) (some 72)]
        else if 24 ≤ (now - s) / 3600 then
          [Pipeline.make_alert none "WARNING" "staleness"
            "pipeline_stale_warning" (some ((now - s) / 3600)) (some 24)]
        else [])) ∧
      Pipeline.evaluate_staleness_alert now (some (some ⟨s, false⟩)) =
        Pipeline.evaluate_staleness_alert now (some (some ⟨s, true⟩)) := by
  refine ⟨rfl, rfl, fun s tz => ⟨?_, ?_⟩⟩
  · cases tz <;>
      simp only [Pipeline.evaluate_staleness_alert,
        Pipeline.STALENESS_CRITICAL_HOURS, Pipeline.STALENESS_WARNING_HOURS,
        Bool.false_eq_true, if_false, if_true]
  · simp only [Pipeline.evaluate_staleness_alert, Bool.false_eq_true,
      if_false, if_true]

/-- C2: when every one of the `MAX_RETRIES + 1` attempts ends retryably
(timeout, connection failure, other exception, or transient status), the call
returns `retry_count = MAX_RETRIES` with absent content, the recorded
`http_status` of the last attempt, and status `timeout` exactly when the last
recorded error contains the timeout marker case-insensitively, else
`failed`. -/
theorem C2_fetch_document_exhausts_retries (hash : String → String)
    (http : String → Nat → AttemptResult) (url : String)
    (hall : ∀ k, k ≤ MAX_RETRIES → retryable (http url k) = true) :
    (fetch_document hash http url).1 =
      { content := none
        content_hash := none
        content_size_bytes := 0
        http_status := recordedStatus (http url MAX_RETRIES)
        fetch_status :=
          if containsSub (pyLower (recordedError (http url MAX_RETRIES))) "timeout"
          then "timeout" else "failed"
        retry_count := MAX_RETRIES } := by
  have s0 := fetch_go_retryable_step hash (http url) 0 3 (hall 0 (by simp [MAX_RETRIES]))
  have s1 := fetch_go_retryable_step hash (http url) 1 2 (hall 1 (by simp [MAX_RETRIES]))
  have s2 := fetch_go_retryable_step hash (http url) 2 1 (hall 2 (by simp [MAX_RETRIES]))
  have s3 := fetch_go_retryable_step hash (http url) 3 0 (hall 3 (by simp [MAX_RETRIES]))
  show (fetch_go hash (http url) 0 (3 + 1) none none).1 = _
  simp only [s0, s1, s2, s3]
  simp [fetch_go, pyStr, MAX_RETRIES]

/-- C2 witness: a timeout on every attempt yields status `timeout`,
`retryCount = MAX_RETRIES` and absent content; a transient HTTP 500 on every
attempt yields status `failed` with `retryCount = MAX_RETRIES`. -/
theorem C2_fetch_document_exhausts_retries_witness :
    (fetch_document (fun _ => "") (fun _ _ => AttemptResult.timeoutExc) "u").1.fetch_status
      = "timeout" ∧
    (fetch_document (fun _ => "") (fun _ _ => AttemptResult.timeoutExc) "u").1.retry_count
      = MAX_RETRIES ∧
    (fetch_document (fun _ => "") (fun _ _ => AttemptResult.timeoutExc) "u").1.content
      = none ∧
    (fetch_document (fun _ => "") (fun _ _ =>
      AttemptResult.response 500 []) "u").1.fetch_status = "failed" ∧
    (fetch_document (fun _ => "") (fun _ _ =>
      AttemptResult.response 500 []) "u").1.retry_count = MAX_RETRIES := by
  have h1 := C2_fetch_document_exhausts_retries (fun _ => "")
    (fun _ _ => AttemptResult.timeoutExc) "u" (fun k _ => rfl)
  have h2 := C2_fetch_document_exhausts_retries (fun _ => "")
    (fun _ _ => AttemptResult.response 500 []) "u" (fun k _ => rfl)
  rw [h1, h2]
  refine ⟨?_, rfl, rfl, ?_, rfl⟩ <;> decide

/-- C3: if the first `k` attempts end retryably and attempt `k` observes a
status `≥ 400` outside the transient set, `fetch_document` returns
immediately with status `failed`, `retry_count = k`, that `http_status`,
absent content and digest, and exactly the `k` backoff sleeps
`BACKOFF_BASE^1 .. BACKOFF_BASE^k` (none when `k = 0`). -/
theorem C3_fetch_document_terminal_immediate (hash : String → String)
    (http : String → Nat → AttemptResult) (url : String) (k st : Nat)
    (chunks : List String) (hk : k ≤ MAX_RETRIES)
    (hpre : ∀ i, i < k → retryable (http url i) = true)
    (hresp : http url k = .response st chunks)
    (h4 : 400 ≤ st) (hnt : st ∉ TRANSIENT_STATUS_CODES) :
    (fetch_document hash http url).1 =
      { content := none
        content_hash := none
        content_size_bytes := 0
        http_status := some st
        fetch_status := "failed"
        retry_count := k } ∧
    (fetch_document hash http url).2 =
      (List.range k).map (fun i => SleepEvent.backoff ((BACKOFF_BASE : ℚ) ^ (i + 1))) := by
  have hk3 : k ≤ 3 := hk
  show (fetch_go hash (http url) 0 (3 + 1) none none).1 = _ ∧
    (fetch_go hash (http url) 0 (3 + 1) none none).2 = _
  interval_cases k
  · have t := fetch_go_terminal hash (http url) 0 3 st chunks hresp h4 hnt
    simp only [t]
    exact ⟨by first | rfl | trivial, by first | simp | trivial⟩
  · have s0 := fetch_go_retryable_step hash (http url) 0 3 (hpre 0 (by omega))
    have t := fetch_go_terminal hash (http url) 1 2 st chunks hresp h4 hnt
    simp only [s0, t]
    refine ⟨by first | rfl | trivial, ?_⟩
    first
    | simp [List.range_succ]
    | trivial
  · have s0 := fetch_go_retryable_step hash (http url) 0 3 (hpre 0 (by omega))
    have s1 := fetch_go_retryable_step hash (http url) 1 2 (hpre 1 (by omega))
    have t := fetch_go_terminal hash (http url) 2 1 st chunks hresp h4 hnt
    simp only [s0, s1, t]
    refine ⟨by first | rfl | trivial, ?_⟩
    first
    | simp [List.range_succ]
    | trivial
  · have s0 := fetch_go_retryable_step hash (http url) 0 3 (hpre 0 (by omega))
    have s1 := fetch_go_retryable_step hash (http url) 1 2 (hpre 1 (by omega))
    have s2 := fetch_go_retryable_step hash (http url) 2 1 (hpre 2 (by omega))
    have t := fetch_go_terminal hash (http url) 3 0 st chunks hresp h4 hnt
    simp only [s0, s1, s2, t]
    refine ⟨by first | rfl | trivial, ?_⟩
    first
    | simp [List.range_succ]
    | trivial

/-- C3 witness: a 404 on the very first attempt yields `failed`,
`retryCount = 0`, `httpStatus = 404` and no backoff sleep at all. -/
theorem C3_fetch_document_terminal_immediate_witness :
    (fetch_document (fun _ => "") (fun _ _ =>
      AttemptResult.response 404 []) "u").1.fetch_status = "failed" ∧
    (fetch_document (fun _ => "") (fun _ _ =>
      AttemptResult.response 404 []) "u").1.retry_count = 0 ∧
    (fetch_document (fun _ => "") (fun _ _ =>
      AttemptResult.response 404 []) "u").1.http_status = some 404 ∧
    (fetch_document (fun _ => "") (fun _ _ =>
      AttemptResult.response 404 []) "u").2 = [] := by
  have h := C3_fetch_document_terminal_immediate (fun _ => "")
    (fun _ _ => AttemptResult.response 404 []) "u" 0 404 []
    (by simp [MAX_RETRIES]) (fun i hi => absurd hi (Nat.not_lt_zero i))
    rfl (by omega) (by decide)
  rw [h.1, h.2]
  exact ⟨rfl, rfl, rfl, rfl⟩

/-- C4: whenever an attempt `k` of the retry loop observes an HTTP status in
the transient set, that attempt records the transient marker `"HTTP <code>"`
(and the status code) and proceeds to the next attempt with one fewer
iteration remaining — consuming one retry slot — and the attempt is preceded
by a backoff sleep of `BACKOFF_BASE^k` seconds when `k > 0` and by no sleep
when `k = 0`; consequently a single transient status followed by a `2xx/3xx`
response returns `success` with `retry_count = 1` and the sleep trace
`[backoff BACKOFF_BASE^1, throttle]`. -/
theorem C4_fetch_document_transient_consumes_retry :
    (∀ (hash : String → String) (http : Nat → AttemptResult) (k r : Nat)
      (le : Option String) (hs : Option Nat) (st : Nat) (chunks : List String),
      http k = .response st chunks → st ∈ TRANSIENT_STATUS_CODES →
      fetch_go hash http k (r + 1) le hs =
        ((fetch_go hash http (k + 1) r (some ("HTTP " ++ toString st))
            (some st)).1,
          (if 0 < k then [SleepEvent.backoff ((BACKOFF_BASE : ℚ) ^ k)] else []) ++
          (fetch_go hash http (k + 1) r (some ("HTTP " ++ toString st))
            (some st)).2)) ∧
    (∀ (hash : String → String) (http : String → Nat → AttemptResult)
      (url : String) (st st2 : Nat) (chunks0 chunks : List String),
      st ∈ TRANSIENT_STATUS_CODES →
      http url 0 = .response st chunks0 →
      http url 1 = .response st2 chunks →
      st2 < 400 →
      (fetch_document hash http url).1.fetch_status = "success" ∧
      (fetch_document hash http url).1.retry_count = 1 ∧
      (fetch_document hash http url).2 =
        [SleepEvent.backoff ((BACKOFF_BASE : ℚ) ^ 1),
         SleepEvent.throttle THROTTLE_DELAY]) := by
  constructor
  · intro hash http k r le hs st chunks hresp hmem
    have h := fetch_go_retryable_step hash http k r
      (by rw [hresp]; simpa [retryable] using hmem) le hs
    rw [hresp] at h
    simpa [recordedError, recordedStatus] using h
  · intro hash http url st st2 chunks0 chunks hst h0 h1 hlt
    have s0 := fetch_go_retryable_step hash (http url) 0 3
      (by rw [h0]; simp [retryable, hst])
    have su := fetch_go_success hash (http url) 1 2 st2 chunks h1 hlt
    refine ⟨?_, ?_, ?_⟩ <;>
      simp only [fetch_document, MAX_RETRIES, s0, su] <;>
      first
      | rfl
      | trivial
      | simp

/-- C4 witness: a transient 503 observed on attempt 1 of an always-503
behaviour records `"HTTP 503"` and continues into attempt 2 after the
`BACKOFF_BASE^1` backoff; and a single 503 followed by a 200 yields
`success` with `retryCount = 1` and the sleep trace `[backoff 2, throttle]`. -/
theorem C4_fetch_document_transient_consumes_retry_witness :
    (fetch_go (fun _ => "") (fun _ => AttemptResult.response 503 []) 1 (2 + 1)
        (some "x") (some 7) =
      ((fetch_go (fun _ => "") (fun _ => AttemptResult.response 503 []) 2 2
          (some ("HTTP " ++ toString 503)) (some 503)).1,
        (if 0 < 1 then [SleepEvent.backoff ((BACKOFF_BASE : ℚ) ^ 1)] else []) ++
        (fetch_go (fun _ => "") (fun _ => AttemptResult.response 503 []) 2 2
          (some ("HTTP " ++ toString 503)) (some 503)).2)) ∧
    ((fetch_document (fun _ => "") (fun _ k =>
      if k = 0 then AttemptResult.response 503 [] else
        AttemptResult.response 200 ["body"]) "u").1.fetch_status = "success" ∧
    (fetch_document (fun _ => "") (fun _ k =>
      if k = 0 then AttemptResult.response 503 [] else
        AttemptResult.response 200 ["body"]) "u").1.retry_count = 1 ∧
    (fetch_document (fun _ => "") (fun _ k =>
      if k = 0 then AttemptResult.response 503 [] else
        AttemptResult.response 200 ["body"]) "u").2 =
      [SleepEvent.backoff ((BACKOFF_BASE : ℚ) ^ 1),
       SleepEvent.throttle THROTTLE_DELAY]) :=
  ⟨C4_fetch_document_transient_consumes_retry.1 (fun _ => "")
    (fun _ => AttemptResult.response 503 []) 1 2 (some "x") (some 7) 503 []
    rfl (by decide),
   C4_fetch_document_transient_consumes_retry.2 (fun _ => "")
    (fun _ k => if k = 0 then AttemptResult.response 503 [] else
      AttemptResult.response 200 ["body"]) "u" 503 200 [] ["body"]
    (by decide) rfl rfl (by omega)⟩

/-- C5: when the accumulated UTF-8 size of a streamed `2xx/3xx` body exceeds
`MAX_CONTENT_SIZE`, `fetch_document` stops consuming chunks, appends the
literal marker line `"[TRUNCATED at 5 MB]"` preceded by two newlines to the
retained content, recomputes `content_size_bytes` as the UTF-8 byte length of
the final annotated string, digests that final content, and still returns
status `success`. -/
theorem C5_fetch_document_truncates (hash : String → String)
    (http : String → Nat → AttemptResult) (url : String) (st : Nat)
    (chunks : List String)
    (hresp : http url 0 = .response st chunks)
    (hlt : st < 400)
    (htr : (streamChunks chunks 0).2.2 = true) :
    (fetch_document hash http url).1 =
      { content :=
          some (joinChunks (streamChunks chunks 0).1 ++ "\n\n[TRUNCATED at 5 MB]")
        content_hash :=
          some (hash (joinChunks (streamChunks chunks 0).1 ++ "\n\n[TRUNCATED at 5 MB]"))
        content_size_bytes :=
          utf8Len (joinChunks (streamChunks chunks 0).1 ++ "\n\n[TRUNCATED at 5 MB]")
        http_status := some st
        fetch_status := "success"
        retry_count := 0 } := by
  have su := fetch_go_success hash (http url) 0 3 st chunks hresp hlt
  have hmark : TRUNCATION_MARKER = "\n\n[TRUNCATED at 5 MB]" := rfl
  show (fetch_go hash (http url) 0 (3 + 1) none none).1 = _
  rw [su none none]
  simp [htr, hmark]

/-- 64 ASCII bytes used to build an oversized body for the C5 witness. -/
def chunk64 : String :=
  "0123456789abcdef0123456789abcdef0123456789abcdef0123456789abcdef"

/-- Concatenation of `n` copies of `chunk64`. -/
def bigStr : Nat → String
  | 0 => ""
  | n + 1 => bigStr n ++ chunk64

/-- Size of one building block. -/
theorem utf8Len_chunk64 : utf8Len chunk64 = 64 := by decide

/-- Size of the concatenated block string. -/
theorem bigStr_utf8Len (n : Nat) : utf8Len (bigStr n) = 64 * n := by
  induction n with
  | zero => rfl
  | succ m ih =>
    rw [bigStr, utf8Len_append, ih, utf8Len_chunk64]
    ring

/-- The oversized chunk is not the empty string. -/
theorem bigStr_not_isEmpty : (bigStr 81921).isEmpty = false := by
  rw [Bool.eq_false_iff]
  intro h
  have h0 : utf8Len (bigStr 81921) = 0 := by
    rw [(String.isEmpty_iff _).mp h]
    rfl
  rw [bigStr_utf8Len] at h0
  omega

/-- Streaming the single oversized chunk truncates: `64 * 81921 = 5242944`
bytes exceed the 5242880-byte cap, so the chunk is dropped and the truncated
flag is set. -/
theorem streamChunks_bigStr : streamChunks [bigStr 81921] 0 = ([], 5242944, true) := by
  have hlen : utf8Len (bigStr 81921) = 5242944 := by
    rw [bigStr_utf8Len]
  norm_num [streamChunks, bigStr_not_isEmpty, hlen, MAX_CONTENT_SIZE]

/-- C5 witness: a single 5242944-byte chunk on a 200 response is truncated —
the outcome is still a success, the retained content is exactly the marker
line (the oversized chunk was discarded), and `content_size_bytes` is the
byte length of the final annotated string. -/
theorem C5_fetch_document_truncates_witness :
    (streamChunks [bigStr 81921] 0).2.2 = true ∧
    (fetch_document (fun _ => "") (fun _ _ =>
      AttemptResult.response 200 [bigStr 81921]) "u").1.fetch_status = "success" ∧
    (fetch_document (fun _ => "") (fun _ _ =>
      AttemptResult.response 200 [bigStr 81921]) "u").1.content =
      some "\n\n[TRUNCATED at 5 MB]" ∧
    (fetch_document (fun _ => "") (fun _ _ =>
      AttemptResult.response 200 [bigStr 81921]) "u").1.content_size_bytes = 21 := by
  have htr : (streamChunks [bigStr 81921] 0).2.2 = true := by
    rw [streamChunks_bigStr]
  have h := C5_fetch_document_truncates (fun _ => "")
    (fun _ _ => AttemptResult.response 200 [bigStr 81921]) "u" 200 [bigStr 81921]
    rfl (by omega) htr
  rw [streamChunks_bigStr] at h
  refine ⟨htr, ?_, ?_, ?_⟩ <;> rw [h] <;> decide

/-- Every chunk kept by the streaming loop passed the size check: either
nothing is kept, or the running total including the kept chunks stays within
the cap. -/
theorem streamChunks_kept_bound :
    ∀ (chunks : List String) (total : Nat),
      (streamChunks chunks total).1 = [] ∨
      total + utf8Len (joinChunks (streamChunks chunks total).1) ≤ MAX_CONTENT_SIZE := by
  intro chunks
  induction chunks with
  | nil =>
    intro total
    left
    rfl
  | cons c rest ih =>
    intro total
    by_cases he : c.isEmpty
    · simpa [streamChunks, he] using ih total
    · by_cases hle : total + utf8Len c ≤ MAX_CONTENT_SIZE
      · right
        simp only [streamChunks, he, if_false, hle, if_true, Bool.false_eq_true]
        rcases ih (total + utf8Len c) with h | h
        · rw [h]
          simpa [joinChunks, utf8Len_append, utf8Len] using hle
        · simp only [joinChunks, utf8Len_append] at h ⊢
          omega
      · left
        simp [streamChunks, he, hle]

/-- When the loop finishes without truncating, the reported total stays within
the cap (provided it started within the cap). -/
theorem streamChunks_total_bound :
    ∀ (chunks : List String) (total : Nat), total ≤ MAX_CONTENT_SIZE →
      (streamChunks chunks total).2.2 = false →
      (streamChunks chunks total).2.1 ≤ MAX_CONTENT_SIZE := by
  intro chunks
  induction chunks with
  | nil =>
    intro total h _
    exact h
  | cons c rest ih =>
    intro total h htr
    by_cases he : c.isEmpty
    · rw [streamChunks] at htr ⊢
      simp only [he, if_true] at htr ⊢
      exact ih total h htr
    · by_cases hle : total + utf8Len c ≤ MAX_CONTENT_SIZE
      · rw [streamChunks] at htr ⊢
        simp only [he, hle, if_true, if_false, Bool.false_eq_true] at htr ⊢
        exact ih (total + utf8Len c) hle htr
      · rw [streamChunks] at htr
        simp [he, hle] at htr

/-- The reported `content_size_bytes` never exceeds the cap plus the marker
length, on any path of the retry loop. -/
theorem fetch_go_size_bound (hash : String → String) (http : Nat → AttemptResult) :
    ∀ (r k : Nat) (le : Option String) (hs : Option Nat),
      (fetch_go hash http k r le hs).1.content_size_bytes ≤
        MAX_CONTENT_SIZE + utf8Len TRUNCATION_MARKER := by
  intro r
  induction r with
  | zero =>
    intro k le hs
    simp [fetch_go]
  | succ n ih =>
    intro k le hs
    cases hcase : http k with
    | timeoutExc =>
      rw [fetch_go_retryable_step hash http k n (by rw [hcase]; rfl) le hs]
      exact ih (k + 1) _ _
    | connError m =>
      rw [fetch_go_retryable_step hash http k n (by rw [hcase]; rfl) le hs]
      exact ih (k + 1) _ _
    | otherExc m =>
      rw [fetch_go_retryable_step hash http k n (by rw [hcase]; rfl) le hs]
      exact ih (k + 1) _ _
    | response st chunks =>
      by_cases hmem : st ∈ TRANSIENT_STATUS_CODES
      · rw [fetch_go_retryable_step hash http k n
          (by rw [hcase]; simpa [retryable] using hmem) le hs]
        exact ih (k + 1) _ _
      · by_cases h4 : 400 ≤ st
        · rw [fetch_go_terminal hash http k n st chunks hcase h4 hmem le hs]
          simp
        · rw [fetch_go_success hash http k n st chunks hcase (by omega) le hs]
          cases htr : (streamChunks chunks 0).2.2 with
          | false =>
            simp only [htr, Bool.false_eq_true, if_false]
            have := streamChunks_total_bound chunks 0 (Nat.zero_le _) htr
            omega
          | true =>
            simp only [htr, if_true]
            rw [utf8Len_append]
            rcases streamChunks_kept_bound chunks 0 with h | h
            · rw [h]
              simp [joinChunks, utf8Len]
            · omega

/-- C9: a truncated body retains at most `MAX_CONTENT_SIZE` bytes of content
before the appended marker — the chunk that first pushes the total over the
cap is discarded entirely — and consequently the reported
`content_size_bytes` of any fetch never exceeds `MAX_CONTENT_SIZE` plus the
marker's byte length. -/
theorem C9_truncation_size_bound :
    (∀ chunks : List String,
      utf8Len (joinChunks (streamChunks chunks 0).1) ≤ MAX_CONTENT_SIZE) ∧
    (∀ (hash : String → String) (http : String → Nat → AttemptResult)
      (url : String),
      (fetch_document hash http url).1.content_size_bytes ≤
        MAX_CONTENT_SIZE + utf8Len TRUNCATION_MARKER) := by
  constructor
  · intro chunks
    rcases streamChunks_kept_bound chunks 0 with h | h
    · rw [h]
      exact Nat.zero_le _
    · omega
  · intro hash http url
    exact fetch_go_size_bound hash (http url) (MAX_RETRIES + 1) 0 none none

end Pipeline
